import Mathlib

/-!
Shallow embedding of the reconnecting market-data client of
`src/services/MarketDataService.ts` (class `MarketDataService`), together with
the wire-message types it decodes.  Stateful methods become pure functions on
an explicit `ServiceState`, returning the new state together with the list of
observable effects the method performs (frames written to the WebSocket,
events emitted on the event bus, timers scheduled).  JavaScript `Set<string>`
is modelled as a duplicate-free list in insertion order (`setAdd` / `setDelete`
mirror `Set.add` / `Set.delete`; `Array.from` is the identity on the list).
Numeric wire fields (price, volume, timestamp) are only ever copied, never
computed with, so they are modelled as rationals / integers.
-/

namespace TradingBot

/-- `MarketTick` from `src/types/index.ts`: the normalized tick handed to
`eventBus.emit('market:tick', tick)`. -/
structure MarketTick where
  symbol : String
  price : Rat
  volume : Rat
  timestamp : Int
  deriving DecidableEq, Repr

/-- One entry of the `data` array of a Finnhub trade message
(`FinnhubTradeMessage` in `MarketDataService.ts`): `s` symbol, `p` price,
`v` volume, `t` timestamp, `c` conditions. -/
structure TradeEntry where
  s : String
  p : Rat
  v : Rat
  t : Int
  c : List String
  deriving DecidableEq, Repr

/-- The `readyState` of the `ws` WebSocket handle. -/
inductive ReadyState
  | CONNECTING
  | OPEN
  | CLOSING
  | CLOSED
  deriving DecidableEq, Repr

/-- The mutable fields of class `MarketDataService`.  `ws` is `none` when the
field is `undefined`, otherwise it carries the socket's `readyState`;
`pingInterval` / `connectionTimeout` record whether the corresponding timer is
currently set. -/
structure ServiceState where
  running : Bool
  reconnectAttempts : Nat
  maxReconnectAttempts : Nat
  reconnectDelay : Nat
  subscribedSymbols : List String
  ws : Option ReadyState
  pingInterval : Bool
  connectionTimeout : Bool
  deriving DecidableEq, Repr

/-- An outbound frame written with `ws.send` (`{"type":"subscribe","symbol":…}`
or `{"type":"unsubscribe","symbol":…}`). -/
inductive OutFrame
  | subscribe (symbol : String)
  | unsubscribe (symbol : String)
  deriving DecidableEq, Repr

/-- An event emitted on the global `eventBus`. -/
inductive BusEvent
  | marketTick (tick : MarketTick)
  | connectionLost
  deriving DecidableEq, Repr

/-- Result of `JSON.parse` on an inbound frame, classified the way
`handleMessage` inspects it: a `trade` message whose `data` field may be
absent, a `ping` message, or some other `type` value. -/
inductive ParsedMessage
  | trade (data : Option (List TradeEntry))
  | ping
  | otherType (t : String)
  deriving DecidableEq, Repr

/-- An inbound frame before parsing: either `JSON.parse` succeeds with a
`ParsedMessage`, or it throws (`malformed`) and control reaches the `catch`
block. -/
inductive RawFrame
  | parsed (m : ParsedMessage)
  | malformed
  deriving DecidableEq, Repr

/-- `Set.add`: insert at the end unless already present (JS sets keep
insertion order and ignore duplicate adds). -/
def setAdd (l : List String) (x : String) : List String :=
  if x ∈ l then l else l ++ [x]

/-- `Set.delete`: remove the (single, when the list is duplicate-free)
occurrence of `x`. -/
def setDelete (l : List String) (x : String) : List String :=
  l.erase x

namespace MarketDataService

/-- Field initializers of the constructor: not running, zero reconnect
attempts, `maxReconnectAttempts = 5`, `reconnectDelay = 5000` ms, empty
subscription set, no socket, no timers. -/
def init : ServiceState :=
  { running := false
    reconnectAttempts := 0
    maxReconnectAttempts := 5
    reconnectDelay := 5000
    subscribedSymbols := []
    ws := none
    pingInterval := false
    connectionTimeout := false }

/-- `isRunning()`: returns the `running` flag. -/
def isRunning (s : ServiceState) : Bool :=
  s.running

/-- `getSubscribedSymbols()`: `Array.from(this.subscribedSymbols)`. -/
def getSubscribedSymbols (s : ServiceState) : List String :=
  s.subscribedSymbols

/-- `subscribe(symbol)`: if `!this.running || !this.ws`, log an error and
return (no mutation).  Otherwise, if `readyState !== OPEN`, add the symbol to
the set and return; if open, add the symbol and send a subscribe frame. -/
def subscribe (s : ServiceState) (symbol : String) : ServiceState × List OutFrame :=
  if !s.running || s.ws.isNone then
    (s, [])
  else if s.ws ≠ some ReadyState.OPEN then
    ({ s with subscribedSymbols := setAdd s.subscribedSymbols symbol }, [])
  else
    ({ s with subscribedSymbols := setAdd s.subscribedSymbols symbol },
     [OutFrame.subscribe symbol])

/-- `unsubscribe(symbol)`: mirror image of `subscribe` with `Set.delete` and
an unsubscribe frame. -/
def unsubscribe (s : ServiceState) (symbol : String) : ServiceState × List OutFrame :=
  if !s.running || s.ws.isNone then
    (s, [])
  else if s.ws ≠ some ReadyState.OPEN then
    ({ s with subscribedSymbols := setDelete s.subscribedSymbols symbol }, [])
  else
    ({ s with subscribedSymbols := setDelete s.subscribedSymbols symbol },
     [OutFrame.unsubscribe symbol])

/-- The observable effect of `stop()`: at most one `ws.close()` call. -/
inductive StopEffect
  | closeTransport
  deriving DecidableEq, Repr

/-- `stop()`: if not running, log a warning and return.  Otherwise clear the
`running` flag, clear both timers, close and drop the socket, and clear the
subscription set.  (`reconnectAttempts` is not touched.) -/
def stop (s : ServiceState) : ServiceState × List StopEffect :=
  if !s.running then
    (s, [])
  else
    ({ s with
        running := false
        pingInterval := false
        connectionTimeout := false
        ws := none
        subscribedSymbols := [] },
     match s.ws with
     | some _ => [StopEffect.closeTransport]
     | none => [])

/-- The body of the `symbols.forEach(symbol => this.subscribe(symbol))` loop
of `resubscribeAll`, threading the state and accumulating sent frames. -/
def replayStep (acc : ServiceState × List OutFrame) (symbol : String) :
    ServiceState × List OutFrame :=
  let r := subscribe acc.1 symbol
  (r.1, acc.2 ++ r.2)

/-- `resubscribeAll()`: if the set is empty, return.  Otherwise snapshot the
set with `Array.from`, clear it, and call `subscribe` on each snapshot
element in order. -/
def resubscribeAll (s : ServiceState) : ServiceState × List OutFrame :=
  if s.subscribedSymbols.isEmpty then
    (s, [])
  else
    s.subscribedSymbols.foldl replayStep ({ s with subscribedSymbols := [] }, [])

/-- The action `handleDisconnect` takes: schedule a reconnect `setTimeout`
after `delayMs`, emit `market:connection-lost`, or (not running) nothing. -/
inductive DisconnectAction
  | scheduleReconnect (delayMs : Nat)
  | emitConnectionLost
  | noAction
  deriving DecidableEq, Repr

/-- `handleDisconnect()`: if not running, return.  If
`reconnectAttempts < maxReconnectAttempts`, increment the counter and schedule
a reconnect after `reconnectDelay * reconnectAttempts` ms; otherwise emit the
`market:connection-lost` event and schedule nothing. -/
def handleDisconnect (s : ServiceState) : ServiceState × DisconnectAction :=
  if !s.running then
    (s, DisconnectAction.noAction)
  else if s.reconnectAttempts < s.maxReconnectAttempts then
    ({ s with reconnectAttempts := s.reconnectAttempts + 1 },
     DisconnectAction.scheduleReconnect (s.reconnectDelay * (s.reconnectAttempts + 1)))
  else
    (s, DisconnectAction.emitConnectionLost)

/-- `handleMessage(data)`: parse the frame; on a parse failure the `catch`
block logs and returns.  A `ping` message returns after a debug log.  A
`trade` message with a `data` array emits one `market:tick` event per entry,
in array order, mapping `s→symbol, p→price, v→volume, t→timestamp`.  Any
other `type` (or a `trade` without `data`) falls through and emits nothing.
No branch touches the connection state. -/
def handleMessage (s : ServiceState) (frame : RawFrame) : ServiceState × List BusEvent :=
  match frame with
  | RawFrame.malformed => (s, [])
  | RawFrame.parsed m =>
    match m with
    | ParsedMessage.ping => (s, [])
    | ParsedMessage.trade (some data) =>
        (s, data.map fun trade =>
          BusEvent.marketTick
            { symbol := trade.s, price := trade.p, volume := trade.v, timestamp := trade.t })
    | ParsedMessage.trade none => (s, [])
    | ParsedMessage.otherType _ => (s, [])

/-- How the transport behaves after `connect()` creates the socket: the
`open` event fires, an `error` event fires before open (rejecting the
promise), or neither happens within 10000 ms and the connection-timeout timer
terminates the socket. -/
inductive ConnectOutcome
  | opens
  | fails (msg : String)
  | timesOut
  deriving DecidableEq, Repr

/-- `connect()`: create the socket (readyState CONNECTING) and arm the
10000 ms connection timeout.  On `open`: reset `reconnectAttempts` to 0,
clear the timeout, run `resubscribeAll`, start the ping interval, resolve
(error `none`).  On a pre-open `error`: reject with the error message.  On
timeout: `ws.terminate()` and reject with the timeout message. -/
def connect (s : ServiceState) (outcome : ConnectOutcome) :
    ServiceState × List OutFrame × Option String :=
  let s1 := { s with ws := some ReadyState.CONNECTING, connectionTimeout := true }
  match outcome with
  | ConnectOutcome.opens =>
      let s2 := { s1 with
        ws := some ReadyState.OPEN
        reconnectAttempts := 0
        connectionTimeout := false }
      let r := resubscribeAll s2
      ({ r.1 with pingInterval := true }, r.2, none)
  | ConnectOutcome.fails msg => (s1, [], some msg)
  | ConnectOutcome.timesOut =>
      ({ s1 with ws := some ReadyState.CLOSED, connectionTimeout := false },
       [], some "WebSocket connection timeout")

/-- `start()`: if already running, log a warning and return normally (the
promise resolves, no error).  Otherwise set `running := true` and await
`connect()`. -/
def start (s : ServiceState) (outcome : ConnectOutcome) :
    ServiceState × List OutFrame × Option String :=
  if s.running then
    (s, [], none)
  else
    connect { s with running := true } outcome

/-- State after `n` consecutive `close` events with no intervening `open`
(each runs `handleDisconnect` once; a failed retry re-enters via its own
`close`). -/
def afterDisconnects (s : ServiceState) : Nat → ServiceState
  | 0 => s
  | n + 1 => afterDisconnects (handleDisconnect s).1 n

/-- The actions of `n` consecutive `handleDisconnect` runs, in order. -/
def disconnectTrace (s : ServiceState) : Nat → List DisconnectAction
  | 0 => []
  | n + 1 => (handleDisconnect s).2 :: disconnectTrace (handleDisconnect s).1 n

end MarketDataService

/-- A `subscribe`/`unsubscribe` call issued by the caller. -/
inductive SubOp
  | sub (symbol : String)
  | unsub (symbol : String)
  deriving DecidableEq, Repr

/-- Apply one caller-issued registry call, keeping only the state (the frames
it may send are not part of the registry). -/
def applyOp (s : ServiceState) (op : SubOp) : ServiceState :=
  match op with
  | SubOp.sub x => (MarketDataService.subscribe s x).1
  | SubOp.unsub x => (MarketDataService.unsubscribe s x).1

/-- Apply a sequence of caller-issued registry calls in order. -/
def applyOps (s : ServiceState) (ops : List SubOp) : ServiceState :=
  ops.foldl applyOp s

open MarketDataService

/-! ### Helper lemmas about the embedded operations -/

theorem subscribe_open (s : ServiceState) (symbol : String)
    (hr : s.running = true) (hw : s.ws = some ReadyState.OPEN) :
    subscribe s symbol
      = ({ s with subscribedSymbols := setAdd s.subscribedSymbols symbol },
         [OutFrame.subscribe symbol]) := by
  simp [subscribe, hr, hw]

theorem subscribe_state_of_running (s : ServiceState) (symbol : String) (rs : ReadyState)
    (hr : s.running = true) (hw : s.ws = some rs) :
    (subscribe s symbol).1
      = { s with subscribedSymbols := setAdd s.subscribedSymbols symbol } := by
  unfold subscribe
  split
  · next hg =>
      rw [hr, hw] at hg
      simp at hg
  · split <;> rfl

theorem setAdd_nodup (l : List String) (x : String) (h : l.Nodup) :
    (setAdd l x).Nodup := by
  unfold setAdd
  split
  · exact h
  · next hx => simp [List.nodup_append, h, hx]

theorem mem_setAdd_self (l : List String) (x : String) : x ∈ setAdd l x := by
  unfold setAdd
  split
  · assumption
  · simp

theorem count_setAdd_self (l : List String) (x : String) (h : l.Nodup) :
    (setAdd l x).count x = 1 := by
  unfold setAdd
  split
  · next hx => exact List.count_eq_one_of_mem h hx
  · next hx =>
      rw [List.count_append, List.count_eq_zero_of_not_mem hx]
      simp

theorem subscribe_fields (s : ServiceState) (symbol : String) :
    (subscribe s symbol).1.running = s.running
    ∧ (subscribe s symbol).1.ws = s.ws
    ∧ (s.subscribedSymbols.Nodup → (subscribe s symbol).1.subscribedSymbols.Nodup) := by
  unfold subscribe
  split
  · exact ⟨rfl, rfl, fun h => h⟩
  · split
    · exact ⟨rfl, rfl, fun h => setAdd_nodup _ _ h⟩
    · exact ⟨rfl, rfl, fun h => setAdd_nodup _ _ h⟩

theorem unsubscribe_fields (s : ServiceState) (symbol : String) :
    (unsubscribe s symbol).1.running = s.running
    ∧ (unsubscribe s symbol).1.ws = s.ws
    ∧ (s.subscribedSymbols.Nodup → (unsubscribe s symbol).1.subscribedSymbols.Nodup) := by
  unfold unsubscribe
  split
  · exact ⟨rfl, rfl, fun h => h⟩
  · split
    · exact ⟨rfl, rfl, fun h => h.erase _⟩
    · exact ⟨rfl, rfl, fun h => h.erase _⟩

theorem applyOp_fields (s : ServiceState) (op : SubOp) :
    (applyOp s op).running = s.running
    ∧ (applyOp s op).ws = s.ws
    ∧ (s.subscribedSymbols.Nodup → (applyOp s op).subscribedSymbols.Nodup) := by
  cases op with
  | sub x => exact subscribe_fields s x
  | unsub x => exact unsubscribe_fields s x

theorem applyOps_fields (ops : List SubOp) (s : ServiceState) :
    (applyOps s ops).running = s.running
    ∧ (applyOps s ops).ws = s.ws
    ∧ (s.subscribedSymbols.Nodup → (applyOps s ops).subscribedSymbols.Nodup) := by
  induction ops generalizing s with
  | nil => exact ⟨rfl, rfl, fun h => h⟩
  | cons op ops ih =>
      have h1 := applyOp_fields s op
      have h2 := ih (applyOp s op)
      refine ⟨h2.1.trans h1.1, h2.2.1.trans h1.2.1, fun h => h2.2.2 (h1.2.2 h)⟩

theorem foldl_replayStep (symbols : List String) (s : ServiceState) (fs : List OutFrame)
    (hr : s.running = true) (hw : s.ws = some ReadyState.OPEN) :
    symbols.foldl replayStep (s, fs)
      = ({ s with subscribedSymbols := symbols.foldl setAdd s.subscribedSymbols },
         fs ++ symbols.map OutFrame.subscribe) := by
  induction symbols generalizing s fs with
  | nil => simp
  | cons a as ih =>
      rw [List.foldl_cons]
      have hstep : replayStep (s, fs) a
          = ({ s with subscribedSymbols := setAdd s.subscribedSymbols a },
             fs ++ [OutFrame.subscribe a]) := by
        simp [replayStep, subscribe_open s a hr hw]
      rw [hstep,
        ih { s with subscribedSymbols := setAdd s.subscribedSymbols a }
          (fs ++ [OutFrame.subscribe a]) hr hw]
      simp

theorem foldl_setAdd_eq_append (l : List String) :
    ∀ acc : List String, l.Nodup → (∀ x ∈ l, x ∉ acc) → l.foldl setAdd acc = acc ++ l := by
  induction l with
  | nil => intro acc _ _; simp
  | cons a as ih =>
      intro acc hn hd
      rw [List.foldl_cons]
      have ha : setAdd acc a = acc ++ [a] := by
        unfold setAdd
        rw [if_neg (hd a (List.mem_cons_self a as))]
      rw [ha, ih (acc ++ [a]) hn.of_cons]
      · simp
      · intro x hx
        simp only [List.mem_append, List.mem_singleton]
        rintro (h | h)
        · exact hd x (List.mem_cons_of_mem a hx) h
        · exact (List.nodup_cons.mp hn).1 (h ▸ hx)

theorem setAdd_idem (l : List String) (x : String) :
    setAdd (setAdd l x) x = setAdd l x := by
  unfold setAdd
  by_cases hx : x ∈ l
  · simp [hx]
  · simp [hx]

theorem outFrame_subscribe_injective : Function.Injective OutFrame.subscribe := by
  intro a b h
  injection h

theorem resubscribeAll_open (s : ServiceState)
    (hr : s.running = true) (hw : s.ws = some ReadyState.OPEN)
    (hn : s.subscribedSymbols.Nodup) :
    resubscribeAll s = (s, s.subscribedSymbols.map OutFrame.subscribe) := by
  unfold resubscribeAll
  split
  · next he => simp [List.isEmpty_iff.mp he]
  · rw [foldl_replayStep s.subscribedSymbols { s with subscribedSymbols := [] } [] hr hw]
    rw [foldl_setAdd_eq_append _ [] hn (by simp)]
    simp

theorem handleDisconnect_schedule (s : ServiceState) (hr : s.running = true)
    (h : s.reconnectAttempts < s.maxReconnectAttempts) :
    handleDisconnect s
      = ({ s with reconnectAttempts := s.reconnectAttempts + 1 },
         DisconnectAction.scheduleReconnect (s.reconnectDelay * (s.reconnectAttempts + 1))) := by
  simp [handleDisconnect, hr, h]

theorem handleDisconnect_terminal (s : ServiceState) (hr : s.running = true)
    (h : ¬ s.reconnectAttempts < s.maxReconnectAttempts) :
    handleDisconnect s = (s, DisconnectAction.emitConnectionLost) := by
  simp [handleDisconnect, hr, h]

theorem disconnectTrace_schedule (n : Nat) :
    ∀ s : ServiceState, s.running = true →
      s.reconnectAttempts + n ≤ s.maxReconnectAttempts →
      disconnectTrace s n
        = (List.range n).map
            (fun i => DisconnectAction.scheduleReconnect
              (s.reconnectDelay * (s.reconnectAttempts + i + 1)))
      ∧ afterDisconnects s n
        = { s with reconnectAttempts := s.reconnectAttempts + n } := by
  induction n with
  | zero => intro s hr h; exact ⟨rfl, rfl⟩
  | succ n ih =>
      intro s hr h
      have hlt : s.reconnectAttempts < s.maxReconnectAttempts := by omega
      have hstep := handleDisconnect_schedule s hr hlt
      have ih' := ih { s with reconnectAttempts := s.reconnectAttempts + 1 } hr
        (by simp; omega)
      constructor
      · show (handleDisconnect s).2 :: disconnectTrace (handleDisconnect s).1 n = _
        rw [hstep]
        show DisconnectAction.scheduleReconnect (s.reconnectDelay * (s.reconnectAttempts + 1))
            :: disconnectTrace { s with reconnectAttempts := s.reconnectAttempts + 1 } n = _
        rw [ih'.1]
        rw [List.range_succ_eq_map, List.map_cons, List.map_map]
        refine congrArg₂ List.cons rfl ?_
        apply List.map_congr_left
        intro i _
        simp only [Function.comp]
        have he : s.reconnectAttempts + 1 + i + 1 = s.reconnectAttempts + (i + 1) + 1 := by
          omega
        rw [he]
      · show afterDisconnects (handleDisconnect s).1 n = _
        rw [hstep]
        show afterDisconnects { s with reconnectAttempts := s.reconnectAttempts + 1 } n = _
        rw [ih'.2]
        have he : s.reconnectAttempts + 1 + n = s.reconnectAttempts + (n + 1) := by omega
        simp [he]

theorem disconnectTrace_add (m n : Nat) :
    ∀ s : ServiceState,
      disconnectTrace s (m + n)
        = disconnectTrace s m ++ disconnectTrace (afterDisconnects s m) n := by
  induction m with
  | zero => intro s; rw [Nat.zero_add]; rfl
  | succ m ih =>
      intro s
      have h : m + 1 + n = (m + n) + 1 := by omega
      rw [h]
      show (handleDisconnect s).2 :: disconnectTrace (handleDisconnect s).1 (m + n) = _
      rw [ih]
      rfl

/-! ### Concrete states used to instantiate the theorems -/

/-- A client that has been started and whose socket reached `OPEN`, with no
subscriptions yet. -/
def openedState : ServiceState :=
  { init with running := true, ws := some ReadyState.OPEN }

/-- A client that has been started but whose socket is still `CONNECTING`
(the connection timeout is armed). -/
def startedConnecting : ServiceState :=
  { init with running := true, ws := some ReadyState.CONNECTING, connectionTimeout := true }

/-! ### Claim theorems -/

/-- C7: every inbound trade-batch frame with K entries decodes to exactly K
`market:tick` events, in the array's order, each tick taking its fields from
its entry as `s→symbol`, `p→price`, `v→volume`, `t→timestampMs` (the
millisecond timestamp field, named `timestamp` in the code), and the
connection state is untouched. -/
theorem C7_trade_batch_ticks (s : ServiceState) (data : List TradeEntry) :
    handleMessage s (RawFrame.parsed (ParsedMessage.trade (some data)))
      = (s, data.map fun trade =>
          BusEvent.marketTick
            { symbol := trade.s, price := trade.p, volume := trade.v, timestamp := trade.t })
    ∧ (handleMessage s (RawFrame.parsed (ParsedMessage.trade (some data)))).2.length
        = data.length := by
  refine ⟨rfl, ?_⟩
  simp [handleMessage]

/-- C8: a ping frame, a frame with an unrecognized type, or a frame that
fails to parse at all emits zero tick events, raises nothing (the handler
returns normally in every case), and leaves the connection state exactly as
it was. -/
theorem C8_nontrade_frames_dropped (s : ServiceState) (t : String) :
    handleMessage s (RawFrame.parsed ParsedMessage.ping) = (s, [])
    ∧ handleMessage s (RawFrame.parsed (ParsedMessage.otherType t)) = (s, [])
    ∧ handleMessage s RawFrame.malformed = (s, []) :=
  ⟨rfl, rfl, rfl⟩

/-- C9: `stop()` is idempotent: for every client state, a second `stop()` is
a no-op with no further close effect, so two calls end in the same state as
one; and a `stop()` of a running client cancels both timers, clears the
subscription set, drops the socket, and clears the running flag. -/
theorem C9_stop_idempotent (s : ServiceState) :
    stop (stop s).1 = ((stop s).1, [])
    ∧ (s.running = true →
        (stop s).1
          = { running := false, reconnectAttempts := s.reconnectAttempts,
              maxReconnectAttempts := s.maxReconnectAttempts,
              reconnectDelay := s.reconnectDelay, subscribedSymbols := [],
              ws := none, pingInterval := false, connectionTimeout := false }) := by
  constructor
  · by_cases hr : s.running = true
    · simp [stop, hr]
    · have hr' : s.running = false := by
        cases h : s.running
        · rfl
        · exact absurd h hr
      simp [stop, hr']
  · intro hr
    simp [stop, hr]

/-- C9 witness: instantiated on an opened client. -/
theorem C9_stop_idempotent_witness :
    stop (stop openedState).1 = ((stop openedState).1, [])
    ∧ (stop openedState).1
        = { running := false, reconnectAttempts := 0, maxReconnectAttempts := 5,
            reconnectDelay := 5000, subscribedSymbols := [], ws := none,
            pingInterval := false, connectionTimeout := false } :=
  ⟨(C9_stop_idempotent openedState).1, (C9_stop_idempotent openedState).2 rfl⟩

/-- C4 counterexample: on an already-running client, `start()` returns
normally with no error at all — it does not fail with an `AlreadyRunning`
error (no such error exists in the code; the call logs a warning and
resolves). -/
theorem C4_counterexample :
    openedState.running = true
    ∧ start openedState ConnectOutcome.opens = (openedState, [], none) := by
  exact ⟨by decide, by decide⟩

/-- C4 (amended): calling `start()` while the client is already running is a
silent no-op: the state is unchanged, no frame is sent, and the returned
error is `none` (the promise resolves), for every transport outcome. -/
theorem C4_amended_start_noop (s : ServiceState) (outcome : ConnectOutcome)
    (hr : s.running = true) :
    start s outcome = (s, [], none) := by
  simp [start, hr]

/-- C4 witness: instantiated on an opened client with a timing-out transport. -/
theorem C4_amended_start_noop_witness :
    start openedState ConnectOutcome.timesOut = (openedState, [], none) :=
  C4_amended_start_noop openedState ConnectOutcome.timesOut rfl

/-- C2 counterexample: on a freshly constructed (not running) client,
`subscribe("AAPL")` does not add the symbol to the SubscriptionSet — the call
is an error-logged early return, so nothing is queued for the next start. -/
theorem C2_counterexample :
    init.running = false
    ∧ subscribe init "AAPL" = (init, [])
    ∧ "AAPL" ∉ (subscribe init "AAPL").1.subscribedSymbols := by
  refine ⟨by decide, by decide, by decide⟩

/-- C2 (amended): `subscribe(symbol)` adds the symbol to the SubscriptionSet
only when the client is running and has a socket handle; when it is not
running (or has no socket) the call is a no-op that neither records nor
queues the symbol. -/
theorem C2_amended_subscribe_guarded (s : ServiceState) (symbol : String) :
    (s.running = true → s.ws.isSome = true →
      symbol ∈ (subscribe s symbol).1.subscribedSymbols)
    ∧ (s.running = false ∨ s.ws = none → subscribe s symbol = (s, [])) := by
  constructor
  · intro hr hw
    rcases Option.isSome_iff_exists.mp hw with ⟨rs, hws⟩
    rw [subscribe_state_of_running s symbol rs hr hws]
    exact mem_setAdd_self _ _
  · rintro (h | h) <;> simp [subscribe, h]

/-- C2 witness: instantiated on an opened client (symbol recorded) and a
fresh client (no-op). -/
theorem C2_amended_subscribe_guarded_witness :
    "AAPL" ∈ (subscribe openedState "AAPL").1.subscribedSymbols
    ∧ subscribe init "AAPL" = (init, []) :=
  ⟨(C2_amended_subscribe_guarded openedState "AAPL").1 rfl rfl,
   (C2_amended_subscribe_guarded init "AAPL").2 (Or.inl rfl)⟩

/-- C3 counterexample: on an open connection with nothing subscribed, two
consecutive `subscribe("AAPL")` calls send two subscribe frames, not one
(the send is not guarded by prior membership); the symbol list does contain
AAPL exactly once. -/
theorem C3_counterexample :
    (subscribe openedState "AAPL").2
        ++ (subscribe (subscribe openedState "AAPL").1 "AAPL").2
      = [OutFrame.subscribe "AAPL", OutFrame.subscribe "AAPL"]
    ∧ ((subscribe openedState "AAPL").2
        ++ (subscribe (subscribe openedState "AAPL").1 "AAPL").2).length ≠ 1
    ∧ (subscribe (subscribe openedState "AAPL").1 "AAPL").1.subscribedSymbols
      = ["AAPL"] := by
  refine ⟨by decide, by decide, by decide⟩

/-- C3 (amended): while the connection is Open, every `subscribe` call sends
a frame unconditionally, so two consecutive `subscribe(symbol)` calls send
exactly two subscribe frames for the symbol, while the SubscriptionSet keeps
the symbol exactly once. -/
theorem C3_amended_duplicate_subscribe (s : ServiceState) (symbol : String)
    (hr : s.running = true) (hw : s.ws = some ReadyState.OPEN)
    (hn : s.subscribedSymbols.Nodup) :
    (subscribe s symbol).2 ++ (subscribe (subscribe s symbol).1 symbol).2
      = [OutFrame.subscribe symbol, OutFrame.subscribe symbol]
    ∧ (subscribe (subscribe s symbol).1 symbol).1.subscribedSymbols.count symbol
      = 1 := by
  have h1 := subscribe_open s symbol hr hw
  have h2 := subscribe_open { s with subscribedSymbols := setAdd s.subscribedSymbols symbol }
    symbol hr hw
  rw [h1]
  rw [show (({ s with subscribedSymbols := setAdd s.subscribedSymbols symbol },
      [OutFrame.subscribe symbol]) : ServiceState × List OutFrame).1
    = { s with subscribedSymbols := setAdd s.subscribedSymbols symbol } from rfl, h2]
  refine ⟨rfl, ?_⟩
  show (setAdd (setAdd s.subscribedSymbols symbol) symbol).count symbol = 1
  rw [setAdd_idem]
  exact count_setAdd_self s.subscribedSymbols symbol hn

/-- C3 witness: instantiated on an opened client with an empty set. -/
theorem C3_amended_duplicate_subscribe_witness :
    (subscribe openedState "AAPL").2
        ++ (subscribe (subscribe openedState "AAPL").1 "AAPL").2
      = [OutFrame.subscribe "AAPL", OutFrame.subscribe "AAPL"]
    ∧ (subscribe (subscribe openedState "AAPL").1 "AAPL").1.subscribedSymbols.count "AAPL"
      = 1 :=
  C3_amended_duplicate_subscribe openedState "AAPL" rfl rfl (by decide)

/-- C1 counterexample: start a fresh client (socket opens), then deliver six
consecutive disconnects.  The sixth exhausts the budget and emits
`market:connection-lost`, yet `isRunning()` still returns `true`, not
`false`: the failure path never clears the `running` flag. -/
theorem C1_counterexample :
    (handleDisconnect (afterDisconnects (start init ConnectOutcome.opens).1 5)).2
      = DisconnectAction.emitConnectionLost
    ∧ isRunning (afterDisconnects (start init ConnectOutcome.opens).1 6) = true := by
  refine ⟨by decide, by decide⟩

/-- C1 (amended): after terminal reconnection failure (budget exhausted, the
connection-lost event is emitted and the state is left untouched),
`isRunning()` still returns `true`; it becomes `false` only through an
explicit `stop()`. -/
theorem C1_amended_terminal_failure_still_running (s : ServiceState)
    (hr : s.running = true) (hm : ¬ s.reconnectAttempts < s.maxReconnectAttempts) :
    handleDisconnect s = (s, DisconnectAction.emitConnectionLost)
    ∧ isRunning s = true
    ∧ isRunning (stop s).1 = false := by
  refine ⟨?_, hr, ?_⟩
  · simp [handleDisconnect, hr, hm]
  · simp [stop, isRunning, hr]

/-- A started client with an open socket whose reconnect budget is already
exhausted (`reconnectAttempts = maxReconnectAttempts = 5`). -/
def exhaustedState : ServiceState :=
  { init with running := true, ws := some ReadyState.OPEN, reconnectAttempts := 5 }

/-- C1 witness: instantiated on a started client with the budget exhausted. -/
theorem C1_amended_witness :
    handleDisconnect exhaustedState = (exhaustedState, DisconnectAction.emitConnectionLost)
    ∧ isRunning exhaustedState = true
    ∧ isRunning (stop exhaustedState).1 = false :=
  C1_amended_terminal_failure_still_running exhaustedState rfl (by decide)

/-- C5: from a running client with a fresh reconnect counter (and the
constructor's `maxReconnectAttempts = 5`, `reconnectDelay = 5000` ms, i.e.
baseDelay of 5 seconds), six consecutive disconnects with no intervening
open schedule reconnects after exactly 5000, 10000, 15000, 20000, 25000 ms
(`reconnectDelay * attempt` for attempts 1..5), and the sixth emits the
connection-lost event and schedules nothing. -/
theorem C5_backoff_schedule (s : ServiceState) (hr : s.running = true)
    (ha : s.reconnectAttempts = 0) (hm : s.maxReconnectAttempts = 5)
    (hd : s.reconnectDelay = 5000) :
    disconnectTrace s 6
      = [DisconnectAction.scheduleReconnect 5000,
         DisconnectAction.scheduleReconnect 10000,
         DisconnectAction.scheduleReconnect 15000,
         DisconnectAction.scheduleReconnect 20000,
         DisconnectAction.scheduleReconnect 25000,
         DisconnectAction.emitConnectionLost] := by
  have h5 := disconnectTrace_schedule 5 s hr (by omega)
  have hrun5 : (afterDisconnects s 5).running = true := by rw [h5.2]; exact hr
  have hm5 : ¬ (afterDisconnects s 5).reconnectAttempts
      < (afterDisconnects s 5).maxReconnectAttempts := by
    rw [h5.2]
    show ¬ s.reconnectAttempts + 5 < s.maxReconnectAttempts
    omega
  have hterm := handleDisconnect_terminal (afterDisconnects s 5) hrun5 hm5
  have h6 : (6 : Nat) = 5 + 1 := rfl
  rw [h6, disconnectTrace_add 5 1 s, h5.1]
  have h1 : disconnectTrace (afterDisconnects s 5) 1
      = [(handleDisconnect (afterDisconnects s 5)).2] := rfl
  rw [h1, hterm]
  simp [List.range_succ, ha, hd]

/-- C5 witness: instantiated on a freshly started client. -/
theorem C5_backoff_schedule_witness :
    disconnectTrace { init with running := true } 6
      = [DisconnectAction.scheduleReconnect 5000,
         DisconnectAction.scheduleReconnect 10000,
         DisconnectAction.scheduleReconnect 15000,
         DisconnectAction.scheduleReconnect 20000,
         DisconnectAction.scheduleReconnect 25000,
         DisconnectAction.emitConnectionLost] :=
  C5_backoff_schedule { init with running := true } rfl rfl rfl rfl

/-- C6: for every sequence of subscribe/unsubscribe calls issued on a
started, not-yet-open client, the replay performed at open time issues
exactly one subscribe frame per symbol present in the SubscriptionSet at
that moment — frame count 1 for present symbols, 0 for absent ones, no
duplicates (the frame list is the one-to-one image of the duplicate-free
set). -/
theorem C6_replay_exact (s0 : ServiceState) (ops : List SubOp) (symbol : String)
    (h0r : s0.running = true) (_h0w : s0.ws = some ReadyState.CONNECTING)
    (h0n : s0.subscribedSymbols.Nodup) :
    (resubscribeAll { applyOps s0 ops with ws := some ReadyState.OPEN }).2
      = (applyOps s0 ops).subscribedSymbols.map OutFrame.subscribe
    ∧ (resubscribeAll { applyOps s0 ops with ws := some ReadyState.OPEN }).2.count
        (OutFrame.subscribe symbol)
      = if symbol ∈ (applyOps s0 ops).subscribedSymbols then 1 else 0 := by
  have hf := applyOps_fields ops s0
  have hn : (applyOps s0 ops).subscribedSymbols.Nodup := hf.2.2 h0n
  have h := resubscribeAll_open { applyOps s0 ops with ws := some ReadyState.OPEN }
    (hf.1.trans h0r) rfl hn
  constructor
  · rw [h]
  · rw [h]
    show ((applyOps s0 ops).subscribedSymbols.map OutFrame.subscribe).count
        (OutFrame.subscribe symbol) = _
    rw [List.count_map_of_injective _ OutFrame.subscribe outFrame_subscribe_injective]
    exact List.count_eq_of_nodup hn

/-- C6 witness: subscribe AAPL and MSFT then unsubscribe AAPL before open;
the replay sends exactly one frame for MSFT. -/
theorem C6_replay_exact_witness :
    (resubscribeAll
        { applyOps startedConnecting [SubOp.sub "AAPL", SubOp.sub "MSFT", SubOp.unsub "AAPL"]
            with ws := some ReadyState.OPEN }).2.count (OutFrame.subscribe "MSFT")
      = 1 :=
  ((C6_replay_exact startedConnecting [SubOp.sub "AAPL", SubOp.sub "MSFT", SubOp.unsub "AAPL"]
    "MSFT" rfl rfl (by decide)).2).trans (by decide)

/-- C10: when `resubscribeAll` runs on a running client whose socket is open,
the SubscriptionSet after the replay equals the snapshot taken at its start
(clearing then re-adding every snapshot element restores the set), so
`getSubscribedSymbols` returns the same symbols before and after. -/
theorem C10_replay_preserves_registry (s : ServiceState)
    (hr : s.running = true) (hw : s.ws = some ReadyState.OPEN)
    (hn : s.subscribedSymbols.Nodup) :
    (resubscribeAll s).1.subscribedSymbols = s.subscribedSymbols
    ∧ getSubscribedSymbols (resubscribeAll s).1 = getSubscribedSymbols s := by
  rw [resubscribeAll_open s hr hw hn]
  exact ⟨rfl, rfl⟩

/-- C10 witness: instantiated on an opened client subscribed to AAPL and
MSFT. -/
theorem C10_replay_preserves_registry_witness :
    (resubscribeAll { openedState with subscribedSymbols := ["AAPL", "MSFT"] }).1.subscribedSymbols
      = ["AAPL", "MSFT"]
    ∧ getSubscribedSymbols
        (resubscribeAll { openedState with subscribedSymbols := ["AAPL", "MSFT"] }).1
      = ["AAPL", "MSFT"] :=
  C10_replay_preserves_registry { openedState with subscribedSymbols := ["AAPL", "MSFT"] }
    rfl rfl (by decide)

end TradingBot
